import Mathlib

/-!
Verification of the ERT (Ensemble based Reservoir Tool) core specification
against the repository sources.

The development embeds, as executable Lean definitions:
  * the `StateMap` realization-lifecycle component (state bit values of §6,
    the legal-transition table of §4.2 that is pinned verbatim by
    `test_transitions` in `src/src/clib/old_tests/enkf/test_enkf_state_map.cpp`,
    and the operations `get`, `set`, `update_matching`, `select_matching`),
  * the observation-set deactivation bookkeeping (`obs_data.hpp`),
  * the run-context record with its three mode constructors
    (`ert_run_context.hpp`),
  * the measurement-ensemble `add_block` call as exercised by
    `src/libres/tests/analysis/test_update.cpp`.

The corresponding `.cpp` implementation files are not part of the source
tree, so those components are modelled from the specification text and from
the test files, which exercise every behaviour the claims mention; each such
definition carries a doc comment saying so.
-/

/-- State bit value `STATE_UNDEFINED = 1` (stable integer contract, spec §6). -/
def STATE_UNDEFINED : Nat := 1

/-- State bit value `STATE_INITIALIZED = 2` (stable integer contract, spec §6). -/
def STATE_INITIALIZED : Nat := 2

/-- State bit value `STATE_HAS_DATA = 4` (stable integer contract, spec §6). -/
def STATE_HAS_DATA : Nat := 4

/-- State bit value `STATE_LOAD_FAILURE = 8` (stable integer contract, spec §6). -/
def STATE_LOAD_FAILURE : Nat := 8

/-- State bit value `STATE_PARENT_FAILURE = 16` (stable integer contract, spec §6). -/
def STATE_PARENT_FAILURE : Nat := 16

/-- Modelled from the spec: the legal-transition table of §4.2 (the file
`state_map.cpp` implementing `StateMap` is not under `src/`; the table is
asserted pair by pair by `test_transitions` in
`src/src/clib/old_tests/enkf/test_enkf_state_map.cpp`, and the test agrees
with the spec table on all 25 pairs).  The list holds exactly the pairs
`(from, to)` marked allowed. -/
def legal_transitions : List (Nat × Nat) :=
  [(STATE_UNDEFINED, STATE_INITIALIZED),
   (STATE_UNDEFINED, STATE_PARENT_FAILURE),
   (STATE_INITIALIZED, STATE_INITIALIZED),
   (STATE_INITIALIZED, STATE_HAS_DATA),
   (STATE_INITIALIZED, STATE_LOAD_FAILURE),
   (STATE_INITIALIZED, STATE_PARENT_FAILURE),
   (STATE_HAS_DATA, STATE_INITIALIZED),
   (STATE_HAS_DATA, STATE_HAS_DATA),
   (STATE_HAS_DATA, STATE_LOAD_FAILURE),
   (STATE_HAS_DATA, STATE_PARENT_FAILURE),
   (STATE_LOAD_FAILURE, STATE_INITIALIZED),
   (STATE_LOAD_FAILURE, STATE_HAS_DATA),
   (STATE_LOAD_FAILURE, STATE_LOAD_FAILURE),
   (STATE_PARENT_FAILURE, STATE_INITIALIZED),
   (STATE_PARENT_FAILURE, STATE_PARENT_FAILURE)]

/-- `StateMap::is_legal_transition(from, to)`: membership of the pair in the
legal-transition table. -/
def is_legal_transition (f t : Nat) : Bool :=
  decide ((f, t) ∈ legal_transitions)

/-- Indexed read of the backing vector of states; reads beyond the current
size return `STATE_UNDEFINED` (spec §3, §4.2 `get`). -/
def state_get : List Nat → Nat → Nat
  | [], _ => STATE_UNDEFINED
  | s :: _, 0 => s
  | _ :: rest, i + 1 => state_get rest i

/-- Indexed write of the backing vector of states, growing the vector with
`STATE_UNDEFINED` padding when the index is beyond the current size
(spec §4.2 `set`). -/
def state_write : List Nat → Nat → Nat → List Nat
  | [], 0, s => [s]
  | [], i + 1, s => STATE_UNDEFINED :: state_write [] i s
  | _ :: rest, 0, s => s :: rest
  | c :: rest, i + 1, s => c :: state_write rest i s

/-- The `StateMap`: an ordered sequence of per-realization states (spec §3). -/
structure StateMap where
  states : List Nat
deriving DecidableEq, Repr

/-- `StateMap(n)`: a fresh map of `n` realizations, all `STATE_UNDEFINED`. -/
def StateMap.ofSize (n : Nat) : StateMap :=
  ⟨List.replicate n STATE_UNDEFINED⟩

/-- `StateMap::size()`. -/
def StateMap.size (m : StateMap) : Nat := m.states.length

/-- `StateMap::get(i)`; returns `STATE_UNDEFINED` for `i ≥ size`. -/
def StateMap.get (m : StateMap) (i : Nat) : Nat := state_get m.states i

/-- `StateMap::set(i, s)`: fails (flag `false`, map unchanged) when the
transition from the current state at `i` to `s` is illegal; otherwise grows
the map as needed and overwrites entry `i` with `s`. -/
def StateMap.set (m : StateMap) (i s : Nat) : Bool × StateMap :=
  if is_legal_transition (m.get i) s then (true, ⟨state_write m.states i s⟩)
  else (false, m)

/-- `set` with the failure flag dropped: the map after attempting the
transition (mirrors the C++ mutation, which leaves the map unchanged on an
illegal transition). -/
def StateMap.setD (m : StateMap) (i s : Nat) : StateMap := (m.set i s).2

/-- `StateMap::update_matching(i, select_mask, new_state)`: applies `set`
only if the current state at `i` matches the bitmask (spec §4.2). -/
def StateMap.update_matching (m : StateMap) (i mask s : Nat) : StateMap :=
  if m.get i &&& mask != 0 then m.setD i s else m

/-- Per-entry bitmask test used by `select_matching`. -/
def select_map (mask : Nat) : List Nat → List Bool
  | [] => []
  | s :: rest => (s &&& mask != 0) :: select_map mask rest

/-- `StateMap::select_matching(mask)`: a boolean mask of length `size`,
true where `get(i) & mask != 0` (spec §4.2). -/
def StateMap.select_matching (m : StateMap) (mask : Nat) : List Bool :=
  select_map mask m.states

/-- Indexed read of a boolean mask, `false` out of range. -/
def mask_get : List Bool → Nat → Bool
  | [], _ => false
  | b :: _, 0 => b
  | _ :: rest, i + 1 => mask_get rest i

/-- A mutation step on a `StateMap`: either `set` or `update_matching`. -/
inductive StateMapOp where
  | set (i s : Nat)
  | update (i mask s : Nat)
deriving DecidableEq, Repr

/-- Apply one mutation step. -/
def StateMap.applyOp (m : StateMap) : StateMapOp → StateMap
  | .set i s => m.setD i s
  | .update i mask s => m.update_matching i mask s

/-- Apply a sequence of mutation steps, left to right. -/
def StateMap.applyOps (m : StateMap) (ops : List StateMapOp) : StateMap :=
  ops.foldl StateMap.applyOp m

/-- C1: `is_legal_transition` agrees with the §4.2 table on all 25 pairs of
the five states (in particular `LOAD_FAILURE → PARENT_FAILURE` is rejected
and `INITIALIZED → PARENT_FAILURE` is allowed), and for every pair not in
the table, `set(i, to)` fails and the map — hence the state at index `i` —
is unchanged. -/
theorem C1_transition_table :
    (is_legal_transition STATE_UNDEFINED STATE_UNDEFINED = false ∧
     is_legal_transition STATE_UNDEFINED STATE_INITIALIZED = true ∧
     is_legal_transition STATE_UNDEFINED STATE_HAS_DATA = false ∧
     is_legal_transition STATE_UNDEFINED STATE_LOAD_FAILURE = false ∧
     is_legal_transition STATE_UNDEFINED STATE_PARENT_FAILURE = true ∧
     is_legal_transition STATE_INITIALIZED STATE_UNDEFINED = false ∧
     is_legal_transition STATE_INITIALIZED STATE_INITIALIZED = true ∧
     is_legal_transition STATE_INITIALIZED STATE_HAS_DATA = true ∧
     is_legal_transition STATE_INITIALIZED STATE_LOAD_FAILURE = true ∧
     is_legal_transition STATE_INITIALIZED STATE_PARENT_FAILURE = true ∧
     is_legal_transition STATE_HAS_DATA STATE_UNDEFINED = false ∧
     is_legal_transition STATE_HAS_DATA STATE_INITIALIZED = true ∧
     is_legal_transition STATE_HAS_DATA STATE_HAS_DATA = true ∧
     is_legal_transition STATE_HAS_DATA STATE_LOAD_FAILURE = true ∧
     is_legal_transition STATE_HAS_DATA STATE_PARENT_FAILURE = true ∧
     is_legal_transition STATE_LOAD_FAILURE STATE_UNDEFINED = false ∧
     is_legal_transition STATE_LOAD_FAILURE STATE_INITIALIZED = true ∧
     is_legal_transition STATE_LOAD_FAILURE STATE_HAS_DATA = true ∧
     is_legal_transition STATE_LOAD_FAILURE STATE_LOAD_FAILURE = true ∧
     is_legal_transition STATE_LOAD_FAILURE STATE_PARENT_FAILURE = false ∧
     is_legal_transition STATE_PARENT_FAILURE STATE_UNDEFINED = false ∧
     is_legal_transition STATE_PARENT_FAILURE STATE_INITIALIZED = true ∧
     is_legal_transition STATE_PARENT_FAILURE STATE_HAS_DATA = false ∧
     is_legal_transition STATE_PARENT_FAILURE STATE_LOAD_FAILURE = false ∧
     is_legal_transition STATE_PARENT_FAILURE STATE_PARENT_FAILURE = true) ∧
    (∀ (m : StateMap) (i t : Nat),
      is_legal_transition (m.get i) t = false →
      m.set i t = (false, m)) := by
  refine ⟨by decide, ?_⟩
  intro m i t h
  simp [StateMap.set, h]

/-- Witness for C1: on a one-element map holding `STATE_INITIALIZED`, the
illegal transition to `STATE_UNDEFINED` fails and leaves the map unchanged. -/
theorem C1_transition_table_witness :
    StateMap.set (StateMap.mk [STATE_INITIALIZED]) 0 STATE_UNDEFINED =
      (false, StateMap.mk [STATE_INITIALIZED]) :=
  C1_transition_table.2 (StateMap.mk [STATE_INITIALIZED]) 0 STATE_UNDEFINED
    (by decide)

/-- Reading a freshly written vector: `state_write` on the empty vector pads
with `STATE_UNDEFINED` below the written index. -/
theorem state_get_write_nil (i : Nat) :
    ∀ (j s : Nat),
      state_get (state_write [] i s) j = if j = i then s else STATE_UNDEFINED := by
  induction i with
  | zero =>
    intro j s
    cases j <;> simp [state_write, state_get]
  | succ i ih =>
    intro j s
    cases j with
    | zero => simp [state_write, state_get]
    | succ j => simpa [state_write, state_get, Nat.succ_inj] using ih j s

/-- Reading after a write: `state_write` overwrites exactly the written
index and leaves every other read unchanged. -/
theorem state_get_write (l : List Nat) :
    ∀ (i j s : Nat),
      state_get (state_write l i s) j = if j = i then s else state_get l j := by
  induction l with
  | nil =>
    intro i j s
    rw [state_get_write_nil]
    cases j <;> simp [state_get]
  | cons c rest ih =>
    intro i j s
    cases i with
    | zero =>
      cases j <;> simp [state_write, state_get]
    | succ i =>
      cases j with
      | zero => simp [state_write, state_get]
      | succ j => simpa [state_write, state_get, Nat.succ_inj] using ih i j s

/-- Every transition allowed by the table targets one of the four
non-`UNDEFINED` states. -/
theorem legal_transition_target (f t : Nat)
    (h : is_legal_transition f t = true) :
    t = STATE_INITIALIZED ∨ t = STATE_HAS_DATA ∨ t = STATE_LOAD_FAILURE ∨
      t = STATE_PARENT_FAILURE := by
  have hm : (f, t) ∈ legal_transitions := of_decide_eq_true h
  simp only [legal_transitions, List.mem_cons, List.mem_singleton,
    List.not_mem_nil, or_false, Prod.mk.injEq, STATE_UNDEFINED,
    STATE_INITIALIZED, STATE_HAS_DATA, STATE_LOAD_FAILURE,
    STATE_PARENT_FAILURE] at hm ⊢
  rcases hm with h|h|h|h|h|h|h|h|h|h|h|h|h|h|h <;> omega

/-- A `setD` step never makes a non-`UNDEFINED` entry `UNDEFINED` again. -/
theorem setD_get_ne_undefined (m : StateMap) (i j s : Nat)
    (h : m.get i ≠ STATE_UNDEFINED) :
    (m.setD j s).get i ≠ STATE_UNDEFINED := by
  unfold StateMap.setD StateMap.set
  by_cases hl : is_legal_transition (m.get j) s = true
  · simp only [hl, if_true]
    show state_get (state_write m.states j s) i ≠ STATE_UNDEFINED
    rw [state_get_write]
    by_cases hij : i = j
    · simp only [hij, if_true]
      have := legal_transition_target _ _ hl
      simp [STATE_UNDEFINED, STATE_INITIALIZED, STATE_HAS_DATA,
        STATE_LOAD_FAILURE, STATE_PARENT_FAILURE] at this ⊢
      omega
    · simpa [hij] using h
  · simp only [Bool.not_eq_true] at hl
    simpa [hl] using h

/-- No single mutation step returns a non-`UNDEFINED` entry to
`UNDEFINED`. -/
theorem applyOp_get_ne_undefined (m : StateMap) (i : Nat) (op : StateMapOp)
    (h : m.get i ≠ STATE_UNDEFINED) :
    (m.applyOp op).get i ≠ STATE_UNDEFINED := by
  cases op with
  | set j s => exact setD_get_ne_undefined m i j s h
  | update j mask s =>
    unfold StateMap.applyOp StateMap.update_matching
    by_cases hc : (m.get j &&& mask != 0) = true
    · simpa [hc] using setD_get_ne_undefined m i j s h
    · simpa [hc] using h

/-- No sequence of mutation steps returns a non-`UNDEFINED` entry to
`UNDEFINED`. -/
theorem applyOps_get_ne_undefined (ops : List StateMapOp) :
    ∀ (m : StateMap) (i : Nat), m.get i ≠ STATE_UNDEFINED →
      (m.applyOps ops).get i ≠ STATE_UNDEFINED := by
  induction ops with
  | nil => intro m i h; simpa [StateMap.applyOps] using h
  | cons op rest ih =>
    intro m i h
    have h1 := applyOp_get_ne_undefined m i op h
    simpa [StateMap.applyOps, List.foldl] using ih (m.applyOp op) i h1

/-- C4: no legal transition targets `STATE_UNDEFINED`, and along every
sequence of `StateMap` operations following a successful `set` on index `i`,
the state at `i` is never `STATE_UNDEFINED` again. -/
theorem C4_no_return_to_undefined :
    (∀ f t, is_legal_transition f t = true → t ≠ STATE_UNDEFINED) ∧
    (∀ (m : StateMap) (i s : Nat) (ops : List StateMapOp),
      (m.set i s).1 = true →
      ((m.set i s).2.applyOps ops).get i ≠ STATE_UNDEFINED) := by
  constructor
  · intro f t h
    have := legal_transition_target f t h
    simp [STATE_UNDEFINED, STATE_INITIALIZED, STATE_HAS_DATA,
      STATE_LOAD_FAILURE, STATE_PARENT_FAILURE] at this ⊢
    omega
  · intro m i s ops h
    by_cases hl : is_legal_transition (m.get i) s = true
    · apply applyOps_get_ne_undefined
      show StateMap.get (m.set i s).2 i ≠ STATE_UNDEFINED
      have h2 : (m.set i s).2 = ⟨state_write m.states i s⟩ := by
        simp [StateMap.set, hl]
      rw [h2]
      show state_get (state_write m.states i s) i ≠ STATE_UNDEFINED
      rw [state_get_write]
      have := legal_transition_target _ _ hl
      simp [STATE_UNDEFINED, STATE_INITIALIZED, STATE_HAS_DATA,
        STATE_LOAD_FAILURE, STATE_PARENT_FAILURE] at this ⊢
      omega
    · exfalso
      simp only [Bool.not_eq_true] at hl
      simp [StateMap.set, hl] at h

/-- Witness for C4: a successful `set` to `STATE_INITIALIZED` followed by a
further legal `set` to `STATE_HAS_DATA` leaves index 0 non-`UNDEFINED`. -/
theorem C4_no_return_to_undefined_witness :
    STATE_INITIALIZED ≠ STATE_UNDEFINED ∧
    (((StateMap.ofSize 2).set 0 STATE_INITIALIZED).2.applyOps
        [StateMapOp.set 0 STATE_HAS_DATA]).get 0 ≠ STATE_UNDEFINED :=
  ⟨C4_no_return_to_undefined.1 STATE_UNDEFINED STATE_INITIALIZED (by decide),
   C4_no_return_to_undefined.2 (StateMap.ofSize 2) 0 STATE_INITIALIZED
     [StateMapOp.set 0 STATE_HAS_DATA] (by decide)⟩

/-- `select_map` preserves the length of the state vector. -/
theorem select_map_length (mask : Nat) :
    ∀ (l : List Nat), (select_map mask l).length = l.length := by
  intro l
  induction l with
  | nil => rfl
  | cons s rest ih => simp [select_map, ih]

/-- In range, reading the selection mask is the bitmask test on the state. -/
theorem mask_get_select_map (mask : Nat) :
    ∀ (l : List Nat) (i : Nat), i < l.length →
      mask_get (select_map mask l) i = (state_get l i &&& mask != 0) := by
  intro l
  induction l with
  | nil => intro i h; cases h
  | cons s rest ih =>
    intro i h
    cases i with
    | zero => simp [select_map, mask_get, state_get]
    | succ i =>
      simp only [select_map, mask_get, state_get]
      exact ih i (by simpa using h)

/-- The size-51 map of `test_select_matching`: `set(10, INITIALIZED)`,
`set(10, HAS_DATA)`, `set(20, INITIALIZED)`, `set(50, INITIALIZED)`. -/
def select_test_map : StateMap :=
  ((((StateMap.ofSize 51).setD 10 STATE_INITIALIZED).setD 10
      STATE_HAS_DATA).setD 20 STATE_INITIALIZED).setD 50 STATE_INITIALIZED

/-- C6: `select_matching(mask)` returns a mask of length exactly `size`,
true at `i` exactly when `get(i) & mask != 0`; on the size-51 test map with
states `10 → HAS_DATA`, `20 → INITIALIZED`, `50 → INITIALIZED`,
`select_matching(HAS_DATA | INITIALIZED)` has exactly indices 10, 20, 50
true. -/
theorem C6_select_matching :
    (∀ (m : StateMap) (mask : Nat),
      (m.select_matching mask).length = m.size ∧
      ∀ i, i < m.size →
        mask_get (m.select_matching mask) i = (m.get i &&& mask != 0)) ∧
    ((select_test_map.select_matching
        (STATE_HAS_DATA ||| STATE_INITIALIZED)).length = 51 ∧
     ∀ i, i < 51 →
       (mask_get (select_test_map.select_matching
           (STATE_HAS_DATA ||| STATE_INITIALIZED)) i = true ↔
         (i = 10 ∨ i = 20 ∨ i = 50))) := by
  constructor
  · intro m mask
    exact ⟨select_map_length mask m.states,
      fun i h => mask_get_select_map mask m.states i h⟩
  · exact ⟨by decide, by decide⟩

/-- Witness for C6: reading the selection mask of a singleton map at index 0
matches the bitmask test on its state. -/
theorem C6_select_matching_witness :
    mask_get ((StateMap.mk [STATE_HAS_DATA]).select_matching STATE_HAS_DATA) 0
      = ((StateMap.mk [STATE_HAS_DATA]).get 0 &&& STATE_HAS_DATA != 0) :=
  (C6_select_matching.1 (StateMap.mk [STATE_HAS_DATA]) STATE_HAS_DATA).2 0
    (by decide)

/-- The size-11 map of `test_update_matching` after `set(10, INITIALIZED)`
and `set(3, PARENT_FAILURE)`. -/
def update_test_map : StateMap :=
  ((StateMap.ofSize 11).setD 10 STATE_INITIALIZED).setD 3 STATE_PARENT_FAILURE

/-- C7: `update_matching(i, select_mask, s)` applies `set(i, s)` exactly when
the current state matches the select mask and leaves the map unchanged
otherwise; on the test map, `update_matching(5, UNDEFINED|LOAD_FAILURE,
INITIALIZED)` flips index 5 to `INITIALIZED` while `update_matching(3, ...)`
leaves index 3 at `PARENT_FAILURE`. -/
theorem C7_update_matching :
    (∀ (m : StateMap) (i mask s : Nat),
      (m.get i &&& mask ≠ 0 → m.update_matching i mask s = (m.set i s).2) ∧
      (m.get i &&& mask = 0 → m.update_matching i mask s = m)) ∧
    ((update_test_map.update_matching 5
        (STATE_UNDEFINED ||| STATE_LOAD_FAILURE) STATE_INITIALIZED).get 5 =
          STATE_INITIALIZED ∧
     (update_test_map.update_matching 3
        (STATE_UNDEFINED ||| STATE_LOAD_FAILURE) STATE_INITIALIZED).get 3 =
          STATE_PARENT_FAILURE) := by
  constructor
  · intro m i mask s
    constructor
    · intro h
      simp [StateMap.update_matching, StateMap.setD, h]
    · intro h
      simp [StateMap.update_matching, h]
  · exact ⟨by decide, by decide⟩

/-- Witness for C7: on the test map, index 5 matches the select mask (so the
`set` branch is taken) and index 3 misses it (so the map is unchanged). -/
theorem C7_update_matching_witness :
    update_test_map.update_matching 5
        (STATE_UNDEFINED ||| STATE_LOAD_FAILURE) STATE_INITIALIZED =
      (update_test_map.set 5 STATE_INITIALIZED).2 ∧
    update_test_map.update_matching 3
        (STATE_UNDEFINED ||| STATE_LOAD_FAILURE) STATE_INITIALIZED =
      update_test_map :=
  ⟨(C7_update_matching.1 update_test_map 5
      (STATE_UNDEFINED ||| STATE_LOAD_FAILURE) STATE_INITIALIZED).1
      (by decide),
   (C7_update_matching.1 update_test_map 3
      (STATE_UNDEFINED ||| STATE_LOAD_FAILURE) STATE_INITIALIZED).2
      (by decide)⟩

/-- A state-map entry is exactly one of the five state bit values. -/
def ValidState (s : Nat) : Prop :=
  s = STATE_UNDEFINED ∨ s = STATE_INITIALIZED ∨ s = STATE_HAS_DATA ∨
    s = STATE_LOAD_FAILURE ∨ s = STATE_PARENT_FAILURE

/-- Every read of a fresh map yields `STATE_UNDEFINED`. -/
theorem state_get_replicate :
    ∀ (n i : Nat),
      state_get (List.replicate n STATE_UNDEFINED) i = STATE_UNDEFINED := by
  intro n
  induction n with
  | zero => intro i; simp [state_get]
  | succ n ih =>
    intro i
    cases i with
    | zero => simp [List.replicate, state_get]
    | succ i => simpa [List.replicate, state_get] using ih i

/-- A `setD` step preserves validity of every entry. -/
theorem setD_valid (m : StateMap) (j s : Nat)
    (h : ∀ i, ValidState (m.get i)) : ∀ i, ValidState ((m.setD j s).get i) := by
  intro i
  unfold StateMap.setD StateMap.set
  by_cases hl : is_legal_transition (m.get j) s = true
  · simp only [hl, if_true]
    show ValidState (state_get (state_write m.states j s) i)
    rw [state_get_write]
    by_cases hij : i = j
    · simp only [hij, if_true]
      rcases legal_transition_target _ _ hl with h1|h1|h1|h1 <;>
        simp [ValidState, h1]
    · simpa [hij] using h i
  · simp only [Bool.not_eq_true] at hl
    simpa [hl] using h i

/-- A single mutation step preserves validity of every entry. -/
theorem applyOp_valid (m : StateMap) (op : StateMapOp)
    (h : ∀ i, ValidState (m.get i)) :
    ∀ i, ValidState ((m.applyOp op).get i) := by
  cases op with
  | set j s => exact setD_valid m j s h
  | update j mask s =>
    intro i
    unfold StateMap.applyOp StateMap.update_matching
    by_cases hc : (m.get j &&& mask != 0) = true
    · simpa [hc] using setD_valid m j s h i
    · simpa [hc] using h i

/-- A sequence of mutation steps preserves validity of every entry. -/
theorem applyOps_valid (ops : List StateMapOp) :
    ∀ (m : StateMap), (∀ i, ValidState (m.get i)) →
      ∀ i, ValidState ((m.applyOps ops).get i) := by
  induction ops with
  | nil => intro m h i; simpa [StateMap.applyOps] using h i
  | cons op rest ih =>
    intro m h i
    have h1 := applyOp_valid m op h
    simpa [StateMap.applyOps, List.foldl] using ih (m.applyOp op) h1 i

/-- The size-151 map of `test_equal` after setting indices 0..24 to
`STATE_INITIALIZED`. -/
def equal_test_map1 : StateMap :=
  (StateMap.ofSize 151).applyOps
    ((List.range 25).map (fun i => StateMapOp.set i STATE_INITIALIZED))

/-- The second map of `test_equal` after the extra `set(15, HAS_DATA)`. -/
def equal_test_map2 : StateMap := equal_test_map1.setD 15 STATE_HAS_DATA

set_option maxRecDepth 100000 in
/-- C10: every reachable `StateMap` entry holds exactly one of the five
state bit values, never a bitwise combination, and a later successful `set`
completely overwrites the previous state: after `set(15, LOAD_FAILURE)` then
`set(15, INITIALIZED)` the entry equals `INITIALIZED` (and the two test maps
of `test_equal` are element-wise equal again), and after `set(10,
INITIALIZED)` then `set(10, HAS_DATA)`, `select_matching` reflects only
`HAS_DATA` at index 10. -/
theorem C10_states_are_single_values :
    (∀ (n : Nat) (ops : List StateMapOp) (i : Nat),
      ValidState (((StateMap.ofSize n).applyOps ops).get i)) ∧
    (((equal_test_map2.setD 15 STATE_LOAD_FAILURE).setD 15
        STATE_INITIALIZED).get 15 = STATE_INITIALIZED ∧
     (equal_test_map2.setD 15 STATE_LOAD_FAILURE).setD 15 STATE_INITIALIZED =
       equal_test_map1) ∧
    (mask_get (select_test_map.select_matching STATE_HAS_DATA) 10 = true ∧
     mask_get (select_test_map.select_matching STATE_INITIALIZED) 10 =
       false) := by
  refine ⟨?_, ⟨by decide, by decide⟩, ⟨by decide, by decide⟩⟩
  intro n ops i
  apply applyOps_valid
  intro j
  show ValidState (state_get (List.replicate n STATE_UNDEFINED) j)
  rw [state_get_replicate]
  simp [ValidState]

/-- Modelled from the spec (§3, §4.3; `obs_data.cpp` is not under `src/`,
only `obs_data.hpp`): one observation point with observed value, standard
deviation, active flag and optional deactivation message. -/
structure obs_point where
  value : Rat
  std : Rat
  active : Bool
  msg : Option String
deriving DecidableEq, Repr

/-- A freshly allocated observation point: inactive, no data. -/
def obs_point_missing : obs_point := ⟨0, 0, false, none⟩

/-- Modelled from the spec: an `obs_block` — a named group of observation
points with its `global_std_scaling` factor (`obs_block_alloc`). -/
structure obs_block where
  obs_key : String
  global_std_scaling : Rat
  points : List obs_point
deriving DecidableEq, Repr

/-- `obs_block_alloc(obs_key, obs_size, global_std_scaling)`. -/
def obs_block_alloc (key : String) (obs_size : Nat) (g : Rat) : obs_block :=
  ⟨key, g, List.replicate obs_size obs_point_missing⟩

/-- `obs_block_get_size`. -/
def obs_block_get_size (b : obs_block) : Nat := b.points.length

/-- Point-list write used by `obs_block_iset`: marks the point active with
the given value and standard deviation. -/
def points_iset : List obs_point → Nat → Rat → Rat → List obs_point
  | [], _, _, _ => []
  | _ :: ps, 0, v, s => ⟨v, s, true, none⟩ :: ps
  | p :: ps, i + 1, v, s => p :: points_iset ps i v s

/-- `obs_block_iset(block, iobs, value, std)`: stores the pair and marks the
point active (spec §4.3). -/
def obs_block_iset (b : obs_block) (iobs : Nat) (v s : Rat) : obs_block :=
  { b with points := points_iset b.points iobs v s }

/-- Point-list write used by `obs_block_deactivate`: sets the point inactive
and records the message. -/
def points_deactivate : List obs_point → Nat → String → List obs_point
  | [], _, _ => []
  | p :: ps, 0, msg => { p with active := false, msg := some msg } :: ps
  | p :: ps, i + 1, msg => p :: points_deactivate ps i msg

/-- `obs_block_deactivate(block, iobs, msg)` (spec §4.3). -/
def obs_block_deactivate (b : obs_block) (iobs : Nat) (msg : String) :
    obs_block :=
  { b with points := points_deactivate b.points iobs msg }

/-- Number of active points of a block. -/
def obs_block_active_count (b : obs_block) : Nat :=
  b.points.countP (fun p => p.active)

/-- Modelled from the spec: the `obs_data` observation set — an
insertion-ordered sequence of observation blocks (spec §3). -/
structure obs_data where
  global_std_scaling : Rat
  blocks : List obs_block
deriving DecidableEq, Repr

/-- `obs_data_alloc(global_std_scaling)`. -/
def obs_data_alloc (g : Rat) : obs_data := ⟨g, []⟩

/-- `obs_data_add_block(obs, key, n)`: fails on a duplicate key (spec §4.3),
otherwise appends a fresh block carrying the set's `global_std_scaling`. -/
def obs_data_add_block (d : obs_data) (key : String) (obs_size : Nat) :
    Option obs_data :=
  if d.blocks.any (fun b => b.obs_key == key) then none
  else some { d with
    blocks := d.blocks ++ [obs_block_alloc key obs_size d.global_std_scaling] }

/-- Block-list form of a deactivation addressed by block index. -/
def blocks_deactivate : List obs_block → Nat → Nat → String → List obs_block
  | [], _, _, _ => []
  | b :: bs, 0, iobs, msg => obs_block_deactivate b iobs msg :: bs
  | b :: bs, k + 1, iobs, msg => b :: blocks_deactivate bs k iobs msg

/-- Deactivating one point of one block of the set (the C API mutates the
block in place inside the set). -/
def obs_data_deactivate (d : obs_data) (iblock iobs : Nat) (msg : String) :
    obs_data :=
  { d with blocks := blocks_deactivate d.blocks iblock iobs msg }

/-- `obs_data_get_active_size`: the sum of the blocks' active counts. -/
def obs_data_get_active_size (d : obs_data) : Nat :=
  (d.blocks.map obs_block_active_count).sum

/-- `obs_data_get_total_size`: the sum of the blocks' sizes. -/
def obs_data_get_total_size (d : obs_data) : Nat :=
  (d.blocks.map obs_block_get_size).sum

/-- Deactivating the same point twice leaves the active count of the point
list at its value after the first deactivation. -/
theorem points_deactivate_twice (l : List obs_point) :
    ∀ (i : Nat) (m1 m2 : String),
      List.countP (fun p => p.active)
          (points_deactivate (points_deactivate l i m1) i m2) =
        List.countP (fun p => p.active) (points_deactivate l i m1) := by
  induction l with
  | nil => intro i m1 m2; rfl
  | cons p ps ih =>
    intro i m1 m2
    cases i with
    | zero => simp [points_deactivate, List.countP_cons]
    | succ i => simp [points_deactivate, List.countP_cons, ih i m1 m2]

/-- Block-level idempotence of deactivation for the active count. -/
theorem obs_block_deactivate_twice (b : obs_block) (i : Nat)
    (m1 m2 : String) :
    obs_block_active_count
        (obs_block_deactivate (obs_block_deactivate b i m1) i m2) =
      obs_block_active_count (obs_block_deactivate b i m1) := by
  unfold obs_block_active_count obs_block_deactivate
  exact points_deactivate_twice b.points i m1 m2

/-- C8: deactivating the same observation point twice in succession leaves
the observation set's `active_size` at its value after the first call —
deactivation of an already-inactive point changes nothing. -/
theorem C8_deactivate_idempotent :
    ∀ (d : obs_data) (iblock iobs : Nat) (m1 m2 : String),
      obs_data_get_active_size
          (obs_data_deactivate (obs_data_deactivate d iblock iobs m1)
            iblock iobs m2) =
        obs_data_get_active_size (obs_data_deactivate d iblock iobs m1) := by
  intro d iblock iobs m1 m2
  unfold obs_data_get_active_size obs_data_deactivate
  simp only
  induction d.blocks generalizing iblock with
  | nil => cases iblock <;> rfl
  | cons b bs ih =>
    cases iblock with
    | zero =>
      simp [blocks_deactivate, obs_block_deactivate_twice]
    | succ k =>
      simp [blocks_deactivate, ih k]

/-- The three run modes of `ert_run_context.hpp`. -/
inductive run_mode_type where
  | ENSEMBLE_EXPERIMENT
  | INIT_ONLY
  | SMOOTHER_RUN
deriving DecidableEq, Repr

/-- Modelled from the spec (§3, §4.7; `ert_run_context.cpp` is not under
`src/`, only the header): the immutable run-context record.  Filesystem
handles are opaque (`Nat` here); `target_update_fs` is optional. -/
structure ert_run_context where
  mode : run_mode_type
  iactive : List Bool
  runpaths : List String
  jobnames : List String
  iter : Nat
  sim_fs : Nat
  target_update_fs : Option Nat
  run_id : String
deriving DecidableEq, Repr

/-- `ert_run_context_alloc_ENSEMBLE_EXPERIMENT(sim_fs, active, runpaths,
jobnames, iter)`; the run id is generated at construction and is passed in
here. -/
def ert_run_context_alloc_ENSEMBLE_EXPERIMENT (sim_fs : Nat)
    (active : List Bool) (runpaths jobnames : List String) (iter : Nat)
    (run_id : String) : ert_run_context :=
  ⟨.ENSEMBLE_EXPERIMENT, active, runpaths, jobnames, iter, sim_fs, none,
    run_id⟩

/-- `ert_run_context_alloc_INIT_ONLY(sim_fs, init_mode, iactive, runpaths,
iter)`; no jobnames and no target filesystem are taken. -/
def ert_run_context_alloc_INIT_ONLY (sim_fs init_mode : Nat)
    (iactive : List Bool) (runpaths : List String) (iter : Nat)
    (run_id : String) : ert_run_context :=
  ⟨.INIT_ONLY, iactive, runpaths, [], iter, sim_fs, none, run_id⟩

/-- `ert_run_context_alloc_SMOOTHER_RUN(sim_fs, target_update_fs, iactive,
runpaths, jobnames, iter)`: the only constructor taking a target
filesystem. -/
def ert_run_context_alloc_SMOOTHER_RUN (sim_fs target_fs : Nat)
    (iactive : List Bool) (runpaths jobnames : List String) (iter : Nat)
    (run_id : String) : ert_run_context :=
  ⟨.SMOOTHER_RUN, iactive, runpaths, jobnames, iter, sim_fs, some target_fs,
    run_id⟩

/-- `ert_run_context_get_update_target_fs`. -/
def ert_run_context_get_update_target_fs (c : ert_run_context) : Option Nat :=
  c.target_update_fs

/-- `ert_run_context_get_mode`. -/
def ert_run_context_get_mode (c : ert_run_context) : run_mode_type := c.mode

/-- `ert_run_context_deactivate_realization(context, iens)`: flips one
activation bit to false; the only permitted post-construction mutation. -/
def ert_run_context_deactivate_realization (c : ert_run_context)
    (iens : Nat) : ert_run_context :=
  { c with iactive := c.iactive.set iens false }

/-- A run context was produced by one of the three mode-specific
constructors. -/
def run_context_from_alloc (c : ert_run_context) : Prop :=
  (∃ s a r j i rid,
      c = ert_run_context_alloc_ENSEMBLE_EXPERIMENT s a r j i rid) ∨
  (∃ s im a r i rid, c = ert_run_context_alloc_INIT_ONLY s im a r i rid) ∨
  (∃ s t a r j i rid,
      c = ert_run_context_alloc_SMOOTHER_RUN s t a r j i rid)

/-- The whole lifetime of a record: the constructed value followed by any
sequence of `deactivate_realization` calls. -/
def apply_deactivations (c : ert_run_context) (l : List Nat) :
    ert_run_context :=
  l.foldl ert_run_context_deactivate_realization c

/-- `deactivate_realization` touches neither the mode nor the target
filesystem handle. -/
theorem apply_deactivations_fields (l : List Nat) :
    ∀ (c : ert_run_context),
      (apply_deactivations c l).target_update_fs = c.target_update_fs ∧
      (apply_deactivations c l).mode = c.mode := by
  induction l with
  | nil => intro c; exact ⟨rfl, rfl⟩
  | cons x xs ih =>
    intro c
    simpa [apply_deactivations, List.foldl,
      ert_run_context_deactivate_realization] using
      ih { c with iactive := c.iactive.set x false }

/-- C9: for every run context produced by one of the three mode-specific
constructors, at every point of its lifetime (i.e. after any sequence of
`deactivate_realization` calls), `target_update_fs` is non-null exactly when
the mode is `SMOOTHER_RUN`; only the `SMOOTHER_RUN` constructor accepts a
target filesystem. -/
theorem C9_smoother_run_target_fs :
    ∀ (c : ert_run_context) (l : List Nat),
      run_context_from_alloc c →
      (ert_run_context_get_update_target_fs (apply_deactivations c l) ≠
          none ↔
        ert_run_context_get_mode (apply_deactivations c l) =
          run_mode_type.SMOOTHER_RUN) := by
  intro c l h
  obtain ⟨hfs, hmode⟩ := apply_deactivations_fields l c
  rw [ert_run_context_get_update_target_fs, ert_run_context_get_mode,
    hfs, hmode]
  rcases h with ⟨s, a, r, j, i, rid, rfl⟩ | ⟨s, im, a, r, i, rid, rfl⟩ |
    ⟨s, t, a, r, j, i, rid, rfl⟩ <;>
    simp [ert_run_context_alloc_ENSEMBLE_EXPERIMENT,
      ert_run_context_alloc_INIT_ONLY, ert_run_context_alloc_SMOOTHER_RUN]

/-- Witness for C9: a `SMOOTHER_RUN` context keeps a non-null target
filesystem after a deactivation. -/
theorem C9_smoother_run_target_fs_witness :
    ert_run_context_get_update_target_fs
        (apply_deactivations
          (ert_run_context_alloc_SMOOTHER_RUN 0 1 [true] ["p"] ["j"] 0
            "RUN0") [0]) ≠ none ↔
      ert_run_context_get_mode
          (apply_deactivations
            (ert_run_context_alloc_SMOOTHER_RUN 0 1 [true] ["p"] ["j"] 0
              "RUN0") [0]) = run_mode_type.SMOOTHER_RUN :=
  C9_smoother_run_target_fs
    (ert_run_context_alloc_SMOOTHER_RUN 0 1 [true] ["p"] ["j"] 0 "RUN0") [0]
    (Or.inr (Or.inr ⟨0, 1, [true], ["p"], ["j"], 0, "RUN0", rfl⟩))

/-- `bool_vector_alloc(size, default_value)`: the activation mask allocation
used by `src/libres/tests/analysis/test_update.cpp`. -/
def bool_vector_alloc (n : Nat) (v : Bool) : List Bool := List.replicate n v

/-- Modelled from the spec and the call site in
`src/libres/tests/analysis/test_update.cpp` (`meas_data.cpp` is not under
`src/`): one measurement block.  Its row count (`ens_size`) is the size of
the activation mask the ensemble was allocated with; `report_step` is the
integer tag passed as the third argument of `meas_data_add_block`. -/
structure meas_block where
  obs_key : String
  report_step : Nat
  ens_size : Nat
  obs_size : Nat
  data : List (List Rat)
deriving DecidableEq, Repr

/-- Modelled from the spec: the measurement ensemble, paired at allocation
time with its activation mask (`meas_data_alloc(ens_mask)`). -/
structure meas_data where
  ens_mask : List Bool
  blocks : List meas_block
deriving DecidableEq, Repr

/-- `meas_data_alloc(ens_mask)`. -/
def meas_data_alloc (ens_mask : List Bool) : meas_data := ⟨ens_mask, []⟩

/-- Modelled from the spec and the call site in
`src/libres/tests/analysis/test_update.cpp`: `meas_data_add_block(meas, key,
report_step, obs_size)`.  The call fails only on a duplicate key (spec §7
DuplicateKey); the third argument is an arbitrary integer tag — the test
passes `1` there while its masks have sizes 10, 100 and 1000, and the
scenario relies on the call succeeding — and the block's row count is taken
from the mask bound at `meas_data_alloc`. -/
def meas_data_add_block (m : meas_data) (obs_key : String)
    (report_step obs_size : Nat) : Option (meas_data × meas_block) :=
  if m.blocks.any (fun b => b.obs_key == obs_key) then none
  else
    let blk : meas_block :=
      ⟨obs_key, report_step, m.ens_mask.length, obs_size,
        List.replicate m.ens_mask.length (List.replicate obs_size 0)⟩
    some ({ m with blocks := m.blocks ++ [blk] }, blk)

/-- Counterexample to C5: the repository's own analysis test builds a
measurement ensemble over a size-10 activation mask and then calls
`meas_data_add_block(meas_data, "OBS1", 1, 45)` — a call that succeeds
although its third argument `1` differs from the mask size `10`, so a
successful `add_block` call does not require that argument to equal the
paired ActivationMask size. -/
theorem C5_counterexample_add_block :
    (meas_data_add_block (meas_data_alloc (bool_vector_alloc 10 true))
        "OBS1" 1 45).isSome = true ∧
      (1 : Nat) ≠ (bool_vector_alloc 10 true).length := by
  constructor
  · rfl
  · decide

/-- C5 (amended): the third argument of `meas_data_add_block` is a report
step, not an ensemble size: the call succeeds whenever the key is fresh,
regardless of that argument, and the ensemble size of the block it returns
is the size of the ActivationMask the ensemble was paired with at
`meas_data_alloc`. -/
theorem C5_add_block_ens_size :
    ∀ (m : meas_data) (key : String) (rstep n : Nat),
      (∀ out, meas_data_add_block m key rstep n = some out →
        out.2.ens_size = m.ens_mask.length) ∧
      ((m.blocks.all (fun b => b.obs_key != key)) = true →
        (meas_data_add_block m key rstep n).isSome = true) := by
  intro m key rstep n
  constructor
  · intro out h
    unfold meas_data_add_block at h
    by_cases hd : (m.blocks.any fun b => b.obs_key == key) = true
    · simp [hd] at h
    · simp only [Bool.not_eq_true] at hd
      simp only [hd, Bool.false_eq_true, if_false, Option.some.injEq] at h
      rw [← h]
  · intro h
    unfold meas_data_add_block
    have hd : (m.blocks.any fun b => b.obs_key == key) = false := by
      rw [Bool.eq_false_iff]
      intro hc
      rw [List.any_eq_true] at hc
      obtain ⟨b, hb, hbk⟩ := hc
      have hall := List.all_eq_true.mp h b hb
      rw [bne_iff_ne] at hall
      rw [beq_iff_eq] at hbk
      exact hall hbk
    simp [hd]

/-- Witness for the amended C5: the test's call over a size-10 mask with
report step 1 succeeds. -/
theorem C5_add_block_ens_size_witness :
    (meas_data_add_block (meas_data_alloc (bool_vector_alloc 10 true))
        "OBS1" 1 45).isSome = true :=
  (C5_add_block_ens_size (meas_data_alloc (bool_vector_alloc 10 true))
    "OBS1" 1 45).2 (by rfl)
